import Mathlib

/-!
Shallow embedding of `mayuri-creates/flask-database-starter`.

The repository has two generations of a small school-records web app:
* `src/part-1/app.py` (Generation A): raw SQLite, one `students` table.
* `src/part-3/app.py` (Generation B): Flask-SQLAlchemy with `Teacher`,
  `Course`, `Student` models and CRUD routes.

The store is modelled as lists of rows.  SQLite facts reflected in the
model: `UNIQUE` and `NOT NULL` column constraints are enforced, while
foreign keys are NOT enforced (SQLAlchemy does not issue
`PRAGMA foreign_keys=ON` for SQLite, so `db.ForeignKey` is purely
declarative here); an integer primary key gets `max rowid + 1` when no
value is supplied.  Each Flask handler is a function from the request
data and the current store to a response together with the store as left
by the handler's commits; a commit that would violate a `UNIQUE`
constraint raises, leaving the store unchanged.  `request.form[k]` on a
missing key aborts the handler with a 400 response.
-/

namespace FlaskDB

/-! ## Generation A: `src/part-1/app.py` -/

namespace Part1

/-- A row of the `students` table created by part-1's `init_db`:
`id INTEGER PRIMARY KEY AUTOINCREMENT, name, email, course TEXT NOT NULL`. -/
structure StudentRow where
  id : Nat
  name : String
  email : String
  course : String
deriving DecidableEq

/-- The part-1 store: `none` while the `students` table does not exist yet,
`some rows` once it does. -/
abbrev DBA := Option (List StudentRow)

/-- The store before `init_db` ever ran: no `students` table. -/
def emptyA : DBA := none

/-- Model of `init_db`: `CREATE TABLE IF NOT EXISTS students (...)`. -/
def init_db : DBA → DBA
  | none => some []
  | some rows => some rows

/-- Largest id present, for SQLite's autoincrement (`max rowid + 1`;
part-1 never deletes, so the autoincrement counter equals the max id). -/
def maxIdA (rows : List StudentRow) : Nat := (rows.map (·.id)).foldr max 0

/-- Model of `add_sample_student` (route `/add`): `executemany` of three fixed
`INSERT INTO students (name, email, course) VALUES (?, ?, ?)` rows. -/
def add_sample_student (rows : List StudentRow) : List StudentRow :=
  rows ++
    [⟨maxIdA rows + 1, "Mayuri Mahajan", "mayuri@gmail.com", "Data Science"⟩,
     ⟨maxIdA rows + 2, "Amit Sharma", "amit@gmail.com", "Web Development"⟩,
     ⟨maxIdA rows + 3, "Sneha Patil", "sneha@gmail.com", "Machine Learning"⟩]

end Part1

/-! ## Generation B: `src/part-3/app.py` -/

namespace Part3

/-- Model of `class Teacher(db.Model)`: `id` primary key, `name` NOT NULL,
`email` UNIQUE NOT NULL.  The `courses` relationship is derived
(`Course.teacher_id`), not stored. -/
structure Teacher where
  id : Nat
  name : String
  email : String
deriving DecidableEq

/-- Model of `class Course(db.Model)`: `id` primary key, `name` NOT NULL,
`description` TEXT, `teacher_id` foreign key NOT NULL. -/
structure Course where
  id : Nat
  name : String
  description : String
  teacher_id : Nat
deriving DecidableEq

/-- Model of `class Student(db.Model)`: `id` primary key, `name` NOT NULL,
`email` UNIQUE NOT NULL, `course_id` foreign key NOT NULL. -/
structure Student where
  id : Nat
  name : String
  email : String
  course_id : Nat
deriving DecidableEq

/-- The `school.db` store: the three tables. -/
structure DB where
  teachers : List Teacher
  courses : List Course
  students : List Student
deriving DecidableEq

/-- The store with empty tables (what `db.create_all()` makes from
a fresh file). -/
def emptyDB : DB := ⟨[], [], []⟩

/-- Model of `request.form`: the submitted POST fields. -/
abbrev Form := List (String × String)

/-- Model of `request.form[k]`: `some v` when field `k` was submitted. -/
def formGet (f : Form) (k : String) : Option String :=
  (f.find? (fun p => p.1 == k)).map (·.2)

/-- The posted `course_id` / `teacher_id` select value is a decimal
numeral bound to the INTEGER column. -/
def parseId (s : String) : Option Nat :=
  match s.data with
  | [] => none
  | ds =>
    ds.foldlM
      (fun acc c => if c.isDigit then some (acc * 10 + (c.toNat - 48)) else none) 0

/-- SQLite `name LIKE '%a%'`: `LIKE` is ASCII-case-insensitive, so this
holds exactly when the name contains `a` or `A`. -/
def likeA (s : String) : Bool := s.data.any (fun c => c == 'a' || c == 'A')

/-- The outcome a handler sends back: a rendered page is irrelevant to the
claims, so successful GET-style renders do not occur here; mutating
handlers `redirect(url_for(target))`, `get_or_404` aborts with 404,
a missing form field aborts with 400, and an `IntegrityError` escaping
`db.session.commit()` is a 500 carrying the constraint message. -/
inductive Resp where
  | redirect (target : String)
  | notFound
  | badRequest
  | dbError (msg : String)
deriving DecidableEq

/-- What a handler leaves behind: the response and the store state after
whatever commits it completed. -/
structure HandlerResult where
  resp : Resp
  db : DB
deriving DecidableEq

/-- Autoincrement for `teacher.id`. -/
def freshTeacherId (db : DB) : Nat := (db.teachers.map (·.id)).foldr max 0 + 1

/-- Autoincrement for `course.id`. -/
def freshCourseId (db : DB) : Nat := (db.courses.map (·.id)).foldr max 0 + 1

/-- Autoincrement for `student.id`. -/
def freshStudentId (db : DB) : Nat := (db.students.map (·.id)).foldr max 0 + 1

/-- Model of `Student.query.get(id)`, the row `get_or_404(id)` fetches. -/
def getStudent (db : DB) (id : Nat) : Option Student :=
  db.students.find? (fun s => s.id == id)

/-- Model of `Teacher.query.get(id)`, the row `get_or_404(id)` fetches. -/
def getTeacher (db : DB) (id : Nat) : Option Teacher :=
  db.teachers.find? (fun t => t.id == id)

/-- Model of `Course.query.get(id)`. -/
def getCourse (db : DB) (id : Nat) : Option Course :=
  db.courses.find? (fun c => c.id == id)

/-- Route `/` (`index`): `Student.query.order_by(Student.name).all()`. -/
def index (db : DB) : List Student :=
  db.students.mergeSort (fun a b => a.name ≤ b.name)

/-- Route `/add` POST (`add_student`): build a `Student` from the form
(`course_id` arrives as the decimal id of the selected course) and commit.
The commit enforces `student.email` UNIQUE; no foreign-key check runs. -/
def add_student (form : Form) (db : DB) : HandlerResult :=
  match formGet form "name", formGet form "email",
      (formGet form "course_id").bind parseId with
  | some n, some e, some cid =>
    if db.students.any (fun s => s.email == e) then
      ⟨Resp.dbError "UNIQUE constraint failed: student.email", db⟩
    else
      ⟨Resp.redirect "index",
        { db with students := db.students ++ [⟨freshStudentId db, n, e, cid⟩] }⟩
  | _, _, _ => ⟨Resp.badRequest, db⟩

/-- Route `/edit/<id>` POST (`edit_student`): `get_or_404`, overwrite
`name`, `email`, `course_id`, commit.  The commit enforces
`student.email` UNIQUE against the other rows. -/
def edit_student (id : Nat) (form : Form) (db : DB) : HandlerResult :=
  match db.students.find? (fun s => s.id == id) with
  | none => ⟨Resp.notFound, db⟩
  | some _ =>
    match formGet form "name", formGet form "email",
        (formGet form "course_id").bind parseId with
    | some n, some e, some cid =>
      if db.students.any (fun s => s.id != id && s.email == e) then
        ⟨Resp.dbError "UNIQUE constraint failed: student.email", db⟩
      else
        ⟨Resp.redirect "index",
          { db with students := db.students.map (fun s =>
              if s.id = id then { s with name := n, email := e, course_id := cid }
              else s) }⟩
    | _, _, _ => ⟨Resp.badRequest, db⟩

/-- Route `/delete/<id>` (`delete_student`): `get_or_404`, delete the row,
commit. -/
def delete_student (id : Nat) (db : DB) : HandlerResult :=
  match db.students.find? (fun s => s.id == id) with
  | none => ⟨Resp.notFound, db⟩
  | some _ =>
    ⟨Resp.redirect "index",
      { db with students := db.students.filter (fun s => s.id != id) }⟩

/-- Route `/courses` (`courses`): `Course.query.limit(10).all()`. -/
def courses (db : DB) : List Course := db.courses.take 10

/-- Route `/add-course` POST (`add_course`): build a `Course` from the form
(`teacher_id` arrives as the decimal id of the selected teacher) and
commit.  `Course` has no UNIQUE column and no foreign-key check runs. -/
def add_course (form : Form) (db : DB) : HandlerResult :=
  match formGet form "name", formGet form "description",
      (formGet form "teacher_id").bind parseId with
  | some n, some d, some tid =>
    ⟨Resp.redirect "courses",
      { db with courses := db.courses ++ [⟨freshCourseId db, n, d, tid⟩] }⟩
  | _, _, _ => ⟨Resp.badRequest, db⟩

/-- Route `/teachers` (`teachers`):
`Teacher.query.filter(Teacher.name.like('%a%')).all()` — SQLite `LIKE`
is case-insensitive over ASCII, so the filter keeps names containing
`a` or `A`. -/
def teachers (db : DB) : List Teacher :=
  db.teachers.filter (fun t => likeA t.name)

/-- Route `/add-teacher` POST (`add_teacher`): read the teacher fields,
commit the `Teacher` (first commit, enforcing `teacher.email` UNIQUE),
then read the course fields and commit the `Course` for `teacher.id`.
A missing course field aborts AFTER the first commit, so the teacher
stays committed while no course is added. -/
def add_teacher (form : Form) (db : DB) : HandlerResult :=
  match formGet form "teacher_name", formGet form "teacher_email" with
  | some tn, some te =>
    if db.teachers.any (fun t => t.email == te) then
      ⟨Resp.dbError "UNIQUE constraint failed: teacher.email", db⟩
    else
      let t : Teacher := ⟨freshTeacherId db, tn, te⟩
      let db1 : DB := { db with teachers := db.teachers ++ [t] }
      match formGet form "course_name", formGet form "course_description" with
      | some cn, some cd =>
        ⟨Resp.redirect "teachers",
          { db1 with courses := db1.courses ++ [⟨freshCourseId db1, cn, cd, t.id⟩] }⟩
      | _, _ => ⟨Resp.badRequest, db1⟩
  | _, _ => ⟨Resp.badRequest, db⟩

/-- Route `/edit-teacher/<id>` POST (`edit_teacher`): `get_or_404`,
overwrite `name` and `email`, commit.  The commit enforces
`teacher.email` UNIQUE against the other rows. -/
def edit_teacher (id : Nat) (form : Form) (db : DB) : HandlerResult :=
  match db.teachers.find? (fun t => t.id == id) with
  | none => ⟨Resp.notFound, db⟩
  | some _ =>
    match formGet form "name", formGet form "email" with
    | some n, some e =>
      if db.teachers.any (fun t => t.id != id && t.email == e) then
        ⟨Resp.dbError "UNIQUE constraint failed: teacher.email", db⟩
      else
        ⟨Resp.redirect "teachers",
          { db with teachers := db.teachers.map (fun t =>
              if t.id = id then { t with name := n, email := e } else t) }⟩
    | _, _ => ⟨Resp.badRequest, db⟩

/-- Route `/delete-teacher/<id>` (`delete_teacher`): `get_or_404`, delete
the teacher row, commit.  The `courses` relationship declares no delete
cascade, so at flush time the mapping layer de-associates the dependent
courses by updating `course.teacher_id` to NULL; that column is
`nullable=False`, so when dependent courses exist the commit raises
`IntegrityError: NOT NULL constraint failed: course.teacher_id`,
rolls back, and nothing is deleted.  Without dependents the plain
row delete goes through. -/
def delete_teacher (id : Nat) (db : DB) : HandlerResult :=
  match db.teachers.find? (fun t => t.id == id) with
  | none => ⟨Resp.notFound, db⟩
  | some _ =>
    if db.courses.any (fun c => c.teacher_id == id) then
      ⟨Resp.dbError "NOT NULL constraint failed: course.teacher_id", db⟩
    else
      ⟨Resp.redirect "teachers",
        { db with teachers := db.teachers.filter (fun t => t.id != id) }⟩

/-- Model of part-3 `init_db`: `db.create_all()` (schema only — tables are always present
in this model), then seed two teachers when the teacher table is empty
and three courses when the course table is empty.  In each seeding
branch the table is empty, so autoincrement hands out 1, 2 (and 3). -/
def init_db (db : DB) : DB :=
  let db1 :=
    if db.teachers.length = 0 then
      { db with teachers :=
          [⟨1, "Dr. Sharma", "sharma@gmail.com"⟩,
           ⟨2, "Prof. Mehta", "mehta@gmail.com"⟩] }
    else db
  if db1.courses.length = 0 then
    { db1 with courses :=
        [⟨1, "Python Basics", "Intro to Python", 1⟩,
         ⟨2, "Web Development", "Flask & Web", 2⟩,
         ⟨3, "Data Science", "Data Analysis", 1⟩] }
  else db1

end Part3

/-! ## Observations and reachable states (Generation B) -/

/-- No two teacher rows share a primary key or an email (the UNIQUE
column). -/
def teacherRowsOk (l : List Part3.Teacher) : Prop :=
  l.Pairwise (fun a b => a.id ≠ b.id ∧ a.email ≠ b.email)

/-- No two student rows share a primary key or an email (the UNIQUE
column). -/
def studentRowsOk (l : List Part3.Student) : Prop :=
  l.Pairwise (fun a b => a.id ≠ b.id ∧ a.email ≠ b.email)

/-- The store invariant the constraints maintain. -/
def dbOk (db : Part3.DB) : Prop :=
  teacherRowsOk db.teachers ∧ studentRowsOk db.students

/-- No two teacher rows share an email. -/
def teacherEmailsDistinct (l : List Part3.Teacher) : Prop :=
  l.Pairwise (fun a b => a.email ≠ b.email)

/-- No two student rows share an email. -/
def studentEmailsDistinct (l : List Part3.Student) : Prop :=
  l.Pairwise (fun a b => a.email ≠ b.email)

/-- Store states reachable from a fresh start (`init_db` on a fresh
`school.db`) by any sequence of handler invocations. -/
inductive Reachable : Part3.DB → Prop where
  | init : Reachable (Part3.init_db Part3.emptyDB)
  | addStudent (form : Part3.Form) (db : Part3.DB) :
      Reachable db → Reachable (Part3.add_student form db).db
  | editStudent (id : Nat) (form : Part3.Form) (db : Part3.DB) :
      Reachable db → Reachable (Part3.edit_student id form db).db
  | deleteStudent (id : Nat) (db : Part3.DB) :
      Reachable db → Reachable (Part3.delete_student id db).db
  | addCourse (form : Part3.Form) (db : Part3.DB) :
      Reachable db → Reachable (Part3.add_course form db).db
  | addTeacher (form : Part3.Form) (db : Part3.DB) :
      Reachable db → Reachable (Part3.add_teacher form db).db
  | editTeacher (id : Nat) (form : Part3.Form) (db : Part3.DB) :
      Reachable db → Reachable (Part3.edit_teacher id form db).db
  | deleteTeacher (id : Nat) (db : Part3.DB) :
      Reachable db → Reachable (Part3.delete_teacher id db).db

/-- The three sample rows of part-1's `/add`, keyed by their
non-id columns: Mayuri Mahajan. -/
def isMayuriRow (s : Part1.StudentRow) : Bool :=
  s.name == "Mayuri Mahajan" && s.email == "mayuri@gmail.com" &&
    s.course == "Data Science"

/-- Part-1 sample row: Amit Sharma. -/
def isAmitRow (s : Part1.StudentRow) : Bool :=
  s.name == "Amit Sharma" && s.email == "amit@gmail.com" &&
    s.course == "Web Development"

/-- Part-1 sample row: Sneha Patil. -/
def isSnehaRow (s : Part1.StudentRow) : Bool :=
  s.name == "Sneha Patil" && s.email == "sneha@gmail.com" &&
    s.course == "Machine Learning"

/-! ## Shared lemmas -/

theorem le_foldr_max {l : List Nat} {x : Nat} (h : x ∈ l) : x ≤ l.foldr max 0 := by
  induction l with
  | nil => cases h
  | cons a t ih =>
    rcases List.mem_cons.mp h with rfl | ht
    · exact Nat.le_max_left _ _
    · exact Nat.le_trans (ih ht) (Nat.le_max_right _ _)

theorem pairwise_append_single {α : Type} {R : α → α → Prop} {l : List α} {x : α}
    (h : l.Pairwise R) (hx : ∀ a ∈ l, R a x) : (l ++ [x]).Pairwise R := by
  rw [List.pairwise_append]
  refine ⟨h, List.pairwise_singleton _ _, fun a ha b hb => ?_⟩
  rw [List.mem_singleton] at hb
  subst hb
  exact hx a ha

theorem pairwise_map_self {α : Type} {R : α → α → Prop} {l : List α} {f : α → α}
    (h : l.Pairwise R) (hf : ∀ a ∈ l, ∀ b ∈ l, R a b → R (f a) (f b)) :
    (l.map f).Pairwise R := by
  rw [List.pairwise_map]
  exact h.imp_of_mem (fun ha hb hr => hf _ ha _ hb hr)

theorem find?_map_of_key {α : Type} {upd : α → α} {key : α → Nat}
    (hid : ∀ s, key (upd s) = key s) (id : Nat) :
    ∀ {l : List α} {s : α},
      l.find? (fun x => key x == id) = some s →
      (l.map upd).find? (fun x => key x == id) = some (upd s) := by
  intro l
  induction l with
  | nil => intro s h; simp at h
  | cons a t ih =>
    intro s h
    by_cases hpa : key a = id
    · rw [List.find?_cons_of_pos _ (by simp [hpa])] at h
      cases h
      rw [List.map_cons, List.find?_cons_of_pos _ (by simp [hid, hpa])]
    · rw [List.find?_cons_of_neg _ (by simp [hpa])] at h
      rw [List.map_cons, List.find?_cons_of_neg _ (by simp [hid, hpa])]
      exact ih h

/-! ## Claims -/

/-- C2: the spec requires a create-Student request whose `course_id`
references no existing Course to be rejected; `add_student` runs no such
check (SQLite foreign keys are unenforced), so the request succeeds and
the dangling Student row is committed. -/
theorem add_student_accepts_dangling_course_ref :
    Part3.emptyDB.courses.all (fun c => c.id != 7) = true ∧
    Part3.add_student [("name", "Eve"), ("email", "eve@gmail.com"), ("course_id", "7")]
        Part3.emptyDB =
      ⟨Part3.Resp.redirect "index", ⟨[], [], [⟨1, "Eve", "eve@gmail.com", 7⟩]⟩⟩ := by
  exact ⟨by decide, by decide⟩

/-- C3: the two-step add-teacher flow is not atomic — with the course
fields missing from the form, the handler aborts after the first commit,
leaving the new Teacher committed and no Course added. -/
theorem add_teacher_not_atomic :
    ∃ (form : Part3.Form) (db : Part3.DB) (t : Part3.Teacher),
      (Part3.add_teacher form db).resp = Part3.Resp.badRequest ∧
      (Part3.add_teacher form db).db.teachers = db.teachers ++ [t] ∧
      (Part3.add_teacher form db).db.courses = db.courses := by
  exact ⟨[("teacher_name", "Bob"), ("teacher_email", "bob@example.com")],
    Part3.init_db Part3.emptyDB, ⟨3, "Bob", "bob@example.com"⟩,
    by decide, by decide, by decide⟩

/-- C9: storage initialization is idempotent in both generations — on a
store whose schema (part-1) or seed rows (part-3) already exist it
changes nothing, and running it twice equals running it once. -/
theorem init_db_idempotent :
    (∀ rows : List Part1.StudentRow, Part1.init_db (some rows) = some rows) ∧
    (∀ d : Part1.DBA, Part1.init_db (Part1.init_db d) = Part1.init_db d) ∧
    (∀ db : Part3.DB, Part3.init_db (Part3.init_db db) = Part3.init_db db) := by
  refine ⟨fun rows => rfl, fun d => ?_, fun db => ?_⟩
  · cases d <;> rfl
  · by_cases h1 : db.teachers.length = 0 <;> by_cases h2 : db.courses.length = 0 <;>
      simp [Part3.init_db, h1, h2]

theorem countP_add_sample (l : List Part1.StudentRow) :
    (Part1.add_sample_student l).countP isMayuriRow = l.countP isMayuriRow + 1 ∧
    (Part1.add_sample_student l).countP isAmitRow = l.countP isAmitRow + 1 ∧
    (Part1.add_sample_student l).countP isSnehaRow = l.countP isSnehaRow + 1 ∧
    (Part1.add_sample_student l).length = l.length + 3 := by
  refine ⟨?_, ?_, ?_, ?_⟩ <;>
    simp [Part1.add_sample_student, List.countP_append, List.countP_cons,
      isMayuriRow, isAmitRow, isSnehaRow]

/-- C10: each part-1 `/add` request appends the same three sample rows
whatever the store holds, and with no uniqueness constraint on the
part-1 schema, `n` requests leave `n` copies of each sample row
(`3 n` rows in total) on top of whatever was there. -/
theorem add_sample_student_accumulates (rows : List Part1.StudentRow) (n : Nat) :
    (Part1.add_sample_student^[n] rows).countP isMayuriRow = rows.countP isMayuriRow + n ∧
    (Part1.add_sample_student^[n] rows).countP isAmitRow = rows.countP isAmitRow + n ∧
    (Part1.add_sample_student^[n] rows).countP isSnehaRow = rows.countP isSnehaRow + n ∧
    (Part1.add_sample_student^[n] rows).length = rows.length + 3 * n := by
  induction n with
  | zero => simp
  | succ n ih =>
    obtain ⟨h1, h2, h3, h4⟩ := ih
    obtain ⟨g1, g2, g3, g4⟩ := countP_add_sample (Part1.add_sample_student^[n] rows)
    rw [Function.iterate_succ_apply']
    exact ⟨by omega, by omega, by omega, by omega⟩

/-- C1 fails as stated: Teacher "Bob" with a fresh email is a valid
creation and it succeeds, yet the `/teachers` listing — which filters
`Teacher.name.like('%a%')` — includes him zero times, not exactly once. -/
theorem teacher_listing_omits_bob :
    (Part3.add_teacher
        [("teacher_name", "Bob"), ("teacher_email", "bob@example.com"),
         ("course_name", "Maths"), ("course_description", "Sums")]
        (Part3.init_db Part3.emptyDB)).resp = Part3.Resp.redirect "teachers" ∧
    ((Part3.add_teacher
        [("teacher_name", "Bob"), ("teacher_email", "bob@example.com"),
         ("course_name", "Maths"), ("course_description", "Sums")]
        (Part3.init_db Part3.emptyDB)).db.teachers.any
      (fun t => t.email == "bob@example.com")) = true ∧
    (Part3.teachers (Part3.add_teacher
        [("teacher_name", "Bob"), ("teacher_email", "bob@example.com"),
         ("course_name", "Maths"), ("course_description", "Sums")]
        (Part3.init_db Part3.emptyDB)).db).countP
      (fun t => t.email == "bob@example.com") = 0 := by
  exact ⟨by decide, by decide, by decide⟩

/-- C1 amended: for every valid Teacher creation (teacher fields present,
email not already present) whose name matches the listing's
`LIKE '%a%'` filter, a subsequent `/teachers` listing includes that
teacher exactly once. -/
theorem add_teacher_listed_exactly_once (db : Part3.DB) (form : Part3.Form)
    (tn te : String)
    (hn : Part3.formGet form "teacher_name" = some tn)
    (he : Part3.formGet form "teacher_email" = some te)
    (hfresh : db.teachers.any (fun t => t.email == te) = false)
    (hlike : Part3.likeA tn = true) :
    (Part3.teachers (Part3.add_teacher form db).db).countP (fun t => t.email == te) = 1 := by
  have hteach : (Part3.add_teacher form db).db.teachers
      = db.teachers ++ [⟨Part3.freshTeacherId db, tn, te⟩] := by
    unfold Part3.add_teacher
    rw [hn, he]
    simp only [hfresh, Bool.false_eq_true, if_false]
    cases hc1 : Part3.formGet form "course_name" with
    | none => simp
    | some cn =>
      cases hc2 : Part3.formGet form "course_description" with
      | none => simp
      | some cd => simp
  unfold Part3.teachers
  rw [hteach, List.filter_append, List.countP_append]
  have h0 : ((db.teachers.filter (fun t => Part3.likeA t.name)).countP
      (fun t => t.email == te)) = 0 := by
    rw [List.countP_filter, List.countP_eq_zero]
    intro t ht
    have := List.any_eq_false.mp hfresh t ht
    simp_all
  rw [h0]
  simp [List.filter_cons, List.countP_cons, hlike]

theorem add_teacher_listed_exactly_once_witness :
    (Part3.teachers (Part3.add_teacher
        [("teacher_name", "Alice"), ("teacher_email", "alice@example.com"),
         ("course_name", "Logic"), ("course_description", "Proofs")]
        (Part3.init_db Part3.emptyDB)).db).countP
      (fun t => t.email == "alice@example.com") = 1 :=
  add_teacher_listed_exactly_once _ _ _ _ rfl rfl (by decide) (by decide)

/-- C4: every fetch-by-identifier handler — `edit_student`,
`delete_student`, `edit_teacher`, `delete_teacher` — answers not-found
and leaves the store unchanged when no row carries the identifier. -/
theorem fetch_by_id_not_found (db : Part3.DB) (id : Nat) (form : Part3.Form)
    (hs : db.students.all (fun s => s.id != id) = true)
    (ht : db.teachers.all (fun t => t.id != id) = true) :
    Part3.edit_student id form db = ⟨Part3.Resp.notFound, db⟩ ∧
    Part3.delete_student id db = ⟨Part3.Resp.notFound, db⟩ ∧
    Part3.edit_teacher id form db = ⟨Part3.Resp.notFound, db⟩ ∧
    Part3.delete_teacher id db = ⟨Part3.Resp.notFound, db⟩ := by
  have hfs : db.students.find? (fun s => s.id == id) = none := by
    rw [List.find?_eq_none]
    intro s hmem
    have := List.all_eq_true.mp hs s hmem
    simpa using this
  have hft : db.teachers.find? (fun t => t.id == id) = none := by
    rw [List.find?_eq_none]
    intro t hmem
    have := List.all_eq_true.mp ht t hmem
    simpa using this
  refine ⟨?_, ?_, ?_, ?_⟩ <;>
    simp [Part3.edit_student, Part3.delete_student, Part3.edit_teacher,
      Part3.delete_teacher, hfs, hft]

theorem fetch_by_id_not_found_witness :
    Part3.edit_student 99 [] (Part3.init_db Part3.emptyDB)
        = ⟨Part3.Resp.notFound, Part3.init_db Part3.emptyDB⟩ ∧
    Part3.delete_teacher 99 (Part3.init_db Part3.emptyDB)
        = ⟨Part3.Resp.notFound, Part3.init_db Part3.emptyDB⟩ :=
  ⟨(fetch_by_id_not_found (Part3.init_db Part3.emptyDB) 99 [] (by decide) (by decide)).1,
   (fetch_by_id_not_found (Part3.init_db Part3.emptyDB) 99 [] (by decide) (by decide)).2.2.2⟩

/-- C5: deleting a Teacher that has dependent Courses does not cascade:
the dependent Course rows (and the Student rows) are not removed — the
delete in fact fails outright, because the mapping layer's attempt to
null out `course.teacher_id` hits its NOT NULL constraint, and the
whole store is left unchanged.  The source defines no delete-Course
route, so the Course half of the claim ranges over no operation. -/
theorem delete_teacher_does_not_cascade (db : Part3.DB) (id : Nat) (t : Part3.Teacher)
    (hmem : Part3.getTeacher db id = some t)
    (hdep : db.courses.any (fun c => c.teacher_id == id) = true) :
    (Part3.delete_teacher id db).db.courses = db.courses ∧
    (Part3.delete_teacher id db).db.students = db.students ∧
    (Part3.delete_teacher id db).resp
      = Part3.Resp.dbError "NOT NULL constraint failed: course.teacher_id" ∧
    (Part3.delete_teacher id db).db = db := by
  unfold Part3.getTeacher at hmem
  unfold Part3.delete_teacher
  rw [hmem]
  simp [hdep]

theorem delete_teacher_does_not_cascade_witness :
    (Part3.delete_teacher 1 (Part3.init_db Part3.emptyDB)).db.courses
        = (Part3.init_db Part3.emptyDB).courses ∧
    (Part3.delete_teacher 1 (Part3.init_db Part3.emptyDB)).db.students
        = (Part3.init_db Part3.emptyDB).students ∧
    (Part3.delete_teacher 1 (Part3.init_db Part3.emptyDB)).resp
        = Part3.Resp.dbError "NOT NULL constraint failed: course.teacher_id" ∧
    (Part3.delete_teacher 1 (Part3.init_db Part3.emptyDB)).db
        = Part3.init_db Part3.emptyDB :=
  delete_teacher_does_not_cascade (Part3.init_db Part3.emptyDB) 1
    ⟨1, "Dr. Sharma", "sharma@gmail.com"⟩ (by decide) (by decide)

/-- C7: a successful edit of a Student's `name`, `email` and `course_id`
followed by a fetch-by-identifier returns exactly the updated values. -/
theorem edit_student_then_fetch (db : Part3.DB) (id : Nat) (form : Part3.Form)
    (n e : String) (cid : Nat) (db2 : Part3.DB)
    (hn : Part3.formGet form "name" = some n)
    (he : Part3.formGet form "email" = some e)
    (hc : (Part3.formGet form "course_id").bind Part3.parseId = some cid)
    (hok : Part3.edit_student id form db = ⟨Part3.Resp.redirect "index", db2⟩) :
    Part3.getStudent db2 id = some ⟨id, n, e, cid⟩ := by
  unfold Part3.edit_student at hok
  cases hf : db.students.find? (fun s => s.id == id) with
  | none => rw [hf] at hok; simp at hok
  | some s =>
    rw [hf, hn, he, hc] at hok
    cases hd : db.students.any (fun x => x.id != id && x.email == e) with
    | true => simp [hd] at hok
    | false =>
      simp only [hd, Bool.false_eq_true, if_false] at hok
      injection hok with hr hdb
      subst hdb
      unfold Part3.getStudent
      have hsid : s.id = id := by simpa using List.find?_some hf
      have hupd : ∀ x : Part3.Student,
          ((fun x : Part3.Student =>
            if x.id = id then { x with name := n, email := e, course_id := cid }
            else x) x).id = x.id := by
        intro x
        by_cases hx : x.id = id <;> simp [hx]
      have hfind := find?_map_of_key hupd id hf
      rw [hfind]
      simp [hsid]

theorem edit_student_then_fetch_witness :
    Part3.getStudent ⟨[], [], [⟨1, "Eva", "eva@example.com", 2⟩]⟩ 1
      = some ⟨1, "Eva", "eva@example.com", 2⟩ :=
  edit_student_then_fetch ⟨[], [], [⟨1, "Eve", "eve@example.com", 1⟩]⟩ 1
    [("name", "Eva"), ("email", "eva@example.com"), ("course_id", "2")]
    "Eva" "eva@example.com" 2 ⟨[], [], [⟨1, "Eva", "eva@example.com", 2⟩]⟩
    rfl rfl (by decide) (by decide)

/-- C8: deleting an existing Student removes it from every subsequent
listing, and the course table — in particular the Course the student
referenced — is untouched. -/
theorem delete_student_removes_from_listing (db : Part3.DB) (id : Nat)
    (st : Part3.Student) (db2 : Part3.DB)
    (hst : Part3.getStudent db id = some st)
    (hdel : Part3.delete_student id db = ⟨Part3.Resp.redirect "index", db2⟩) :
    (Part3.index db2).all (fun s => s.id != id) = true ∧
    db2.courses = db.courses ∧
    Part3.getCourse db2 st.course_id = Part3.getCourse db st.course_id := by
  unfold Part3.getStudent at hst
  unfold Part3.delete_student at hdel
  rw [hst] at hdel
  injection hdel with hr hdb
  subst hdb
  refine ⟨?_, rfl, rfl⟩
  rw [List.all_eq_true]
  intro s hmem
  have h1 : s ∈ db.students.filter (fun x => x.id != id) := by
    simpa [Part3.index, List.mem_mergeSort] using hmem
  exact (List.mem_filter.mp h1).2

theorem delete_student_removes_from_listing_witness :
    (Part3.index ⟨[], [⟨1, "C", "d", 1⟩], [⟨2, "Bob", "bob@example.com", 1⟩]⟩).all
        (fun s => s.id != 1) = true ∧
    (⟨[], [⟨1, "C", "d", 1⟩], [⟨2, "Bob", "bob@example.com", 1⟩]⟩ : Part3.DB).courses
        = (⟨[], [⟨1, "C", "d", 1⟩],
            [⟨1, "Eve", "eve@example.com", 1⟩, ⟨2, "Bob", "bob@example.com", 1⟩]⟩ :
            Part3.DB).courses ∧
    Part3.getCourse ⟨[], [⟨1, "C", "d", 1⟩], [⟨2, "Bob", "bob@example.com", 1⟩]⟩ 1
        = Part3.getCourse ⟨[], [⟨1, "C", "d", 1⟩],
            [⟨1, "Eve", "eve@example.com", 1⟩, ⟨2, "Bob", "bob@example.com", 1⟩]⟩ 1 :=
  delete_student_removes_from_listing
    ⟨[], [⟨1, "C", "d", 1⟩],
      [⟨1, "Eve", "eve@example.com", 1⟩, ⟨2, "Bob", "bob@example.com", 1⟩]⟩ 1
    ⟨1, "Eve", "eve@example.com", 1⟩
    ⟨[], [⟨1, "C", "d", 1⟩], [⟨2, "Bob", "bob@example.com", 1⟩]⟩
    (by decide) (by decide)

theorem freshStudentId_gt {db : Part3.DB} {s : Part3.Student}
    (h : s ∈ db.students) : s.id < Part3.freshStudentId db := by
  have hle : s.id ≤ (db.students.map (·.id)).foldr max 0 :=
    le_foldr_max (List.mem_map_of_mem _ h)
  unfold Part3.freshStudentId
  omega

theorem freshTeacherId_gt {db : Part3.DB} {t : Part3.Teacher}
    (h : t ∈ db.teachers) : t.id < Part3.freshTeacherId db := by
  have hle : t.id ≤ (db.teachers.map (·.id)).foldr max 0 :=
    le_foldr_max (List.mem_map_of_mem _ h)
  unfold Part3.freshTeacherId
  omega

theorem dbOk_add_student (form : Part3.Form) {db : Part3.DB} (h : dbOk db) :
    dbOk (Part3.add_student form db).db := by
  unfold Part3.add_student
  cases h1 : Part3.formGet form "name" with
  | none => exact h
  | some n =>
  cases h2 : Part3.formGet form "email" with
  | none => exact h
  | some e =>
  cases h3 : (Part3.formGet form "course_id").bind Part3.parseId with
  | none => exact h
  | some cid =>
  simp only []
  cases hdup : db.students.any (fun s => s.email == e) with
  | true => exact h
  | false =>
    refine ⟨h.1, pairwise_append_single h.2 ?_⟩
    intro a ha
    refine ⟨Nat.ne_of_lt (freshStudentId_gt ha), ?_⟩
    have := List.any_eq_false.mp hdup a ha
    simpa using this

theorem dbOk_edit_student (id : Nat) (form : Part3.Form) {db : Part3.DB}
    (h : dbOk db) : dbOk (Part3.edit_student id form db).db := by
  unfold Part3.edit_student
  cases hf : db.students.find? (fun s => s.id == id) with
  | none => exact h
  | some s =>
  cases h1 : Part3.formGet form "name" with
  | none => exact h
  | some n =>
  cases h2 : Part3.formGet form "email" with
  | none => exact h
  | some e =>
  cases h3 : (Part3.formGet form "course_id").bind Part3.parseId with
  | none => exact h
  | some cid =>
  simp only []
  cases hdup : db.students.any (fun x => x.id != id && x.email == e) with
  | true => exact h
  | false =>
    refine ⟨h.1, pairwise_map_self h.2 ?_⟩
    intro a ha b hb hab
    refine ⟨?_, ?_⟩
    · by_cases hai : a.id = id <;> by_cases hbi : b.id = id <;>
        simpa [hai, hbi] using hab.1
    · by_cases hai : a.id = id <;> by_cases hbi : b.id = id
      · exact absurd (hai.trans hbi.symm) hab.1
      · have hb2 := List.any_eq_false.mp hdup b hb
        simp [hbi] at hb2
        simp only [hai, if_true, hbi, if_false, if_neg hbi]
        simp
        exact fun hcontra => hb2 hcontra.symm
      · have ha2 := List.any_eq_false.mp hdup a ha
        simp [hai] at ha2
        simp only [hai, hbi, if_pos hbi, if_neg hai]
        simp
        exact ha2
      · simp only [if_neg hai, if_neg hbi]
        exact hab.2

theorem dbOk_delete_student (id : Nat) {db : Part3.DB} (h : dbOk db) :
    dbOk (Part3.delete_student id db).db := by
  unfold Part3.delete_student
  cases hf : db.students.find? (fun s => s.id == id) with
  | none => exact h
  | some s => exact ⟨h.1, List.Pairwise.filter _ h.2⟩

theorem dbOk_add_course (form : Part3.Form) {db : Part3.DB} (h : dbOk db) :
    dbOk (Part3.add_course form db).db := by
  unfold Part3.add_course
  cases h1 : Part3.formGet form "name" with
  | none => exact h
  | some n =>
  cases h2 : Part3.formGet form "description" with
  | none => exact h
  | some d =>
  cases h3 : (Part3.formGet form "teacher_id").bind Part3.parseId with
  | none => exact h
  | some tid => exact h

theorem dbOk_add_teacher (form : Part3.Form) {db : Part3.DB} (h : dbOk db) :
    dbOk (Part3.add_teacher form db).db := by
  unfold Part3.add_teacher
  cases h1 : Part3.formGet form "teacher_name" with
  | none => exact h
  | some tn =>
  cases h2 : Part3.formGet form "teacher_email" with
  | none => exact h
  | some te =>
  simp only []
  cases hdup : db.teachers.any (fun t => t.email == te) with
  | true => exact h
  | false =>
    have key : teacherRowsOk
        (db.teachers ++ [⟨Part3.freshTeacherId db, tn, te⟩]) := by
      refine pairwise_append_single h.1 ?_
      intro a ha
      refine ⟨Nat.ne_of_lt (freshTeacherId_gt ha), ?_⟩
      have := List.any_eq_false.mp hdup a ha
      simpa using this
    cases h3 : Part3.formGet form "course_name" with
    | none => exact ⟨key, h.2⟩
    | some cn =>
    cases h4 : Part3.formGet form "course_description" with
    | none => exact ⟨key, h.2⟩
    | some cd => exact ⟨key, h.2⟩

theorem dbOk_edit_teacher (id : Nat) (form : Part3.Form) {db : Part3.DB}
    (h : dbOk db) : dbOk (Part3.edit_teacher id form db).db := by
  unfold Part3.edit_teacher
  cases hf : db.teachers.find? (fun t => t.id == id) with
  | none => exact h
  | some t =>
  cases h1 : Part3.formGet form "name" with
  | none => exact h
  | some n =>
  cases h2 : Part3.formGet form "email" with
  | none => exact h
  | some e =>
  simp only []
  cases hdup : db.teachers.any (fun x => x.id != id && x.email == e) with
  | true => exact h
  | false =>
    refine ⟨pairwise_map_self h.1 ?_, h.2⟩
    intro a ha b hb hab
    refine ⟨?_, ?_⟩
    · by_cases hai : a.id = id <;> by_cases hbi : b.id = id <;>
        simpa [hai, hbi] using hab.1
    · by_cases hai : a.id = id <;> by_cases hbi : b.id = id
      · exact absurd (hai.trans hbi.symm) hab.1
      · have hb2 := List.any_eq_false.mp hdup b hb
        simp [hbi] at hb2
        simp only [if_pos hai, if_neg hbi]
        simp
        exact fun hcontra => hb2 hcontra.symm
      · have ha2 := List.any_eq_false.mp hdup a ha
        simp [hai] at ha2
        simp only [if_pos hbi, if_neg hai]
        simp
        exact ha2
      · simp only [if_neg hai, if_neg hbi]
        exact hab.2

theorem dbOk_delete_teacher (id : Nat) {db : Part3.DB} (h : dbOk db) :
    dbOk (Part3.delete_teacher id db).db := by
  unfold Part3.delete_teacher
  cases hf : db.teachers.find? (fun t => t.id == id) with
  | none => exact h
  | some t =>
    cases hdep : db.courses.any (fun c => c.teacher_id == id) with
    | true => exact h
    | false => exact ⟨List.Pairwise.filter _ h.1, h.2⟩

theorem reachable_dbOk {db : Part3.DB} (h : Reachable db) : dbOk db := by
  induction h with
  | init =>
    refine ⟨?_, ?_⟩ <;>
      simp [teacherRowsOk, studentRowsOk, Part3.init_db, Part3.emptyDB,
        List.pairwise_cons]
  | addStudent form db _ ih => exact dbOk_add_student form ih
  | editStudent id form db _ ih => exact dbOk_edit_student id form ih
  | deleteStudent id db _ ih => exact dbOk_delete_student id ih
  | addCourse form db _ ih => exact dbOk_add_course form ih
  | addTeacher form db _ ih => exact dbOk_add_teacher form ih
  | editTeacher id form db _ ih => exact dbOk_edit_teacher id form ih
  | deleteTeacher id db _ ih => exact dbOk_delete_teacher id ih

/-- C6: in every reachable store state no two Teachers share an email and
no two Students share an email, and every create or update that would
introduce a duplicate email (the row exists and all fields are present,
but another row of the same table already carries the email) fails with
the store-level uniqueness error and leaves the store unchanged. -/
theorem email_uniqueness (db : Part3.DB) (h : Reachable db) :
    teacherEmailsDistinct db.teachers ∧
    studentEmailsDistinct db.students ∧
    (∀ form n e cid, Part3.formGet form "name" = some n →
      Part3.formGet form "email" = some e →
      (Part3.formGet form "course_id").bind Part3.parseId = some cid →
      db.students.any (fun s => s.email == e) = true →
      Part3.add_student form db
        = ⟨Part3.Resp.dbError "UNIQUE constraint failed: student.email", db⟩) ∧
    (∀ form tn te, Part3.formGet form "teacher_name" = some tn →
      Part3.formGet form "teacher_email" = some te →
      db.teachers.any (fun t => t.email == te) = true →
      Part3.add_teacher form db
        = ⟨Part3.Resp.dbError "UNIQUE constraint failed: teacher.email", db⟩) ∧
    (∀ id form st n e cid, Part3.getStudent db id = some st →
      Part3.formGet form "name" = some n →
      Part3.formGet form "email" = some e →
      (Part3.formGet form "course_id").bind Part3.parseId = some cid →
      db.students.any (fun x => x.id != id && x.email == e) = true →
      Part3.edit_student id form db
        = ⟨Part3.Resp.dbError "UNIQUE constraint failed: student.email", db⟩) ∧
    (∀ id form t n e, Part3.getTeacher db id = some t →
      Part3.formGet form "name" = some n →
      Part3.formGet form "email" = some e →
      db.teachers.any (fun x => x.id != id && x.email == e) = true →
      Part3.edit_teacher id form db
        = ⟨Part3.Resp.dbError "UNIQUE constraint failed: teacher.email", db⟩) := by
  obtain ⟨hT, hS⟩ := reachable_dbOk h
  refine ⟨hT.imp (fun hab => hab.2), hS.imp (fun hab => hab.2), ?_, ?_, ?_, ?_⟩
  · intro form n e cid hn he hc hdup
    unfold Part3.add_student
    rw [hn, he, hc]
    simp only [hdup, if_true]
  · intro form tn te hn he hdup
    unfold Part3.add_teacher
    rw [hn, he]
    simp only [hdup, if_true]
  · intro id form st n e cid hst hn he hc hdup
    unfold Part3.getStudent at hst
    unfold Part3.edit_student
    rw [hst, hn, he, hc]
    simp only [hdup, if_true]
  · intro id form t n e hst hn he hdup
    unfold Part3.getTeacher at hst
    unfold Part3.edit_teacher
    rw [hst, hn, he]
    simp only [hdup, if_true]

theorem email_uniqueness_witness :
    teacherEmailsDistinct (Part3.init_db Part3.emptyDB).teachers ∧
    Part3.add_teacher
        [("teacher_name", "Imposter"), ("teacher_email", "sharma@gmail.com"),
         ("course_name", "C"), ("course_description", "D")]
        (Part3.init_db Part3.emptyDB)
      = ⟨Part3.Resp.dbError "UNIQUE constraint failed: teacher.email",
         Part3.init_db Part3.emptyDB⟩ :=
  ⟨(email_uniqueness (Part3.init_db Part3.emptyDB) Reachable.init).1,
   (email_uniqueness (Part3.init_db Part3.emptyDB) Reachable.init).2.2.2.1
     [("teacher_name", "Imposter"), ("teacher_email", "sharma@gmail.com"),
      ("course_name", "C"), ("course_description", "D")]
     "Imposter" "sharma@gmail.com" rfl rfl (by decide)⟩

end FlaskDB
